import Mathlib

/-!
Verification of the DroneBL.py command-line client (src/dronebl.py).

This file gives a shallow embedding of the parts of the program that the
specification talks about: the CLI validators (checkint, ipaddr, idorip,
querylimit), the RPC request builder (get_rpcrequest, req_addmethod and the
request-building loops of do_query and do_add), the RPC response handling of
send_rpcrequest, the query-table renderer of do_query, and the configuration
loader load_config.  Machine strings are Lean strings (Python len counts code
points, as does String.length); Python dictionaries are modelled as
insertion-ordered association lists; fallible Python code returns Option or
Except; a deliberate sys.exit and an unhandled Python exception are separate
constructors of a process-outcome type.
-/

set_option autoImplicit false

namespace DroneBL

/-! ### Python primitives used by the validators -/

/-- Model of the character class stripped by Python int() around a numeric
literal (ASCII whitespace; non-ASCII space code points are not modelled). -/
def isSpaceChar (c : Char) : Bool :=
  c == ' ' || c == '\t' || c == '\n' || c == '\r' || c == '\x0b' || c == '\x0c'

def isDigitChar (c : Char) : Bool :=
  '0' ≤ c && c ≤ '9'

def digitVal (c : Char) : Nat := c.toNat - 48

/-- Digits of a Python int literal after the optional sign: a digit followed by
further digits, where a single underscore may stand between two digits
(Python grammar digit (["_"] digit)*). -/
def parseDigitsAux : Nat → List Char → Option Nat
  | acc, [] => some acc
  | acc, '_' :: c :: rest =>
      if isDigitChar c then parseDigitsAux (acc * 10 + digitVal c) rest else none
  | _, ['_'] => none
  | acc, c :: rest =>
      if isDigitChar c then parseDigitsAux (acc * 10 + digitVal c) rest else none

def parseDigitsU : List Char → Option Nat
  | [] => none
  | c :: rest => if isDigitChar c then parseDigitsAux (digitVal c) rest else none

def stripWS (cs : List Char) : List Char :=
  ((cs.dropWhile isSpaceChar).reverse.dropWhile isSpaceChar).reverse

/-- Model of Python int(s) on a string: optional surrounding whitespace, an
optional sign, then decimal digits with optional single underscores between
digits.  Returns none where int() raises ValueError. -/
def pyIntParse (s : String) : Option Int :=
  match stripWS s.toList with
  | '+' :: rest => (parseDigitsU rest).map (fun n => (n : Int))
  | '-' :: rest => (parseDigitsU rest).map (fun n => -(n : Int))
  | rest => (parseDigitsU rest).map (fun n => (n : Int))

/-- Embedding of checkint (dronebl.py lines 34-38): int(val) wrapped in
try/except, returning None on failure. -/
def checkint (val : String) : Option Int := pyIntParse val

/-- Embedding of querylimit (dronebl.py lines 76-82) after the initial
lim = int(val) conversion: the range checks are applied to the converted
integer, so the function is stated over Int. -/
def querylimit (lim : Int) : Except String Int :=
  if lim < 1 then .error "value must be greater than 0"
  else if lim > 255 then .error "value must be less than 1001"
  else .ok lim

/-! ### Model of ipaddress.ip_network(val, strict = False)

The Python standard library function is modelled for the grammar the tool can
receive on the command line: an IPv4 dotted quad, an IPv6 address written as
colon-separated hextets with at most one "::" compression, optionally followed
by "/" and a decimal prefix length.  Netmask/hostmask-form prefixes, IPv4
addresses embedded in IPv6 text, and zone identifiers are not modelled; all
theorems below only assume that a string the model parses is parsed the way
the model says, so the restriction shrinks the quantified domain and nothing
else. -/

/-- Split a character list at every occurrence of the separator (like Python
str.split with a one-character separator: n separators give n+1 parts). -/
def splitChar (sep : Char) : List Char → List (List Char)
  | [] => [[]]
  | c :: rest =>
    match splitChar sep rest with
    | [] => if c == sep then [[], []] else [[c]]
    | p :: ps => if c == sep then [] :: p :: ps else (c :: p) :: ps

/-- One dotted-quad octet: 1-3 ASCII digits, value at most 255, leading zeros
rejected (as in the Python parser). -/
def parseOctet (cs : List Char) : Option Nat :=
  if cs.isEmpty || cs.length > 3 || !(cs.all isDigitChar) then none
  else if cs.length > 1 && cs.head? == some '0' then none
  else
    let v := cs.foldl (fun a c => a * 10 + digitVal c) 0
    if v ≤ 255 then some v else none

def parseV4 (cs : List Char) : Option Nat :=
  let parts := splitChar '.' cs
  if parts.length == 4 then
    (parts.mapM parseOctet).map (fun vs => vs.foldl (fun a o => a * 256 + o) 0)
  else none

def isHexDigitChar (c : Char) : Bool :=
  ('0' ≤ c && c ≤ '9') || ('a' ≤ c && c ≤ 'f') || ('A' ≤ c && c ≤ 'F')

def hexVal (c : Char) : Nat :=
  if '0' ≤ c && c ≤ '9' then c.toNat - 48
  else if 'a' ≤ c && c ≤ 'f' then c.toNat - 87
  else c.toNat - 55

/-- One IPv6 hextet: 1-4 hex digits (leading zeros allowed). -/
def parseHextet (cs : List Char) : Option Nat :=
  if cs.isEmpty || cs.length > 4 || !(cs.all isHexDigitChar) then none
  else some (cs.foldl (fun a c => a * 16 + hexVal c) 0)

/-- Whether a "::" occurs somewhere in the list. -/
def hasDC : List Char → Bool
  | ':' :: ':' :: _ => true
  | _ :: rest => hasDC rest
  | [] => false

/-- Split at the first "::", when there is one. -/
def findDC : List Char → Option (List Char × List Char)
  | ':' :: ':' :: rest => some ([], rest)
  | c :: rest => (findDC rest).map (fun p => (c :: p.1, p.2))
  | [] => none

/-- The eight hextet values of an IPv6 address text, handling at most one
"::" compression standing for the missing zero groups. -/
def v6groups (cs : List Char) : Option (List Nat) :=
  match findDC cs with
  | none =>
    let parts := splitChar ':' cs
    if parts.length == 8 then parts.mapM parseHextet else none
  | some (l, r) =>
    if hasDC r then none
    else
      let lp := if l.isEmpty then [] else splitChar ':' l
      let rp := if r.isEmpty then [] else splitChar ':' r
      if lp.length + rp.length ≤ 7 then
        match lp.mapM parseHextet, rp.mapM parseHextet with
        | some lv, some rv =>
            some (lv ++ List.replicate (8 - lv.length - rv.length) 0 ++ rv)
        | _, _ => none
      else none

def parseV6 (cs : List Char) : Option Nat :=
  (v6groups cs).map (fun gs => gs.foldl (fun a g => a * 65536 + g) 0)

/-- Decimal digits only, as the Python prefix-length parser requires. -/
def parseNatDigits (cs : List Char) : Option Nat :=
  if cs.isEmpty || !(cs.all isDigitChar) then none
  else some (cs.foldl (fun a c => a * 10 + digitVal c) 0)

/-- An IP network as the program uses it: address family, network address with
host bits cleared, and prefix length (the Python prefixlen). -/
structure IpNet where
  v6 : Bool
  addr : Nat
  plen : Nat
deriving DecidableEq

/-- Maximum prefix length of the address family (Python max_prefixlen). -/
def famWidth (v6 : Bool) : Nat := if v6 then 128 else 32

/-- Clearing the host bits of an address under a prefix length, which is what
ipaddress.ip_network does when strict is False. -/
def maskAddr (w p a : Nat) : Nat := a / 2 ^ (w - p) * 2 ^ (w - p)

/-- Model of ipaddress.ip_network(val, False): an address with no "/" becomes
a full-length network; with "/" the decimal prefix length is applied and host
bits are silently zeroed. -/
def ip_network (val : String) : Option IpNet :=
  match splitChar '/' val.toList with
  | [a] =>
    match parseV4 a with
    | some n => some ⟨false, n, 32⟩
    | none =>
      match parseV6 a with
      | some n => some ⟨true, n, 128⟩
      | none => none
  | [a, p] =>
    match parseNatDigits p with
    | none => none
    | some pl =>
      match parseV4 a with
      | some n => if pl ≤ 32 then some ⟨false, maskAddr 32 pl n, pl⟩ else none
      | none =>
        match parseV6 a with
        | some n => if pl ≤ 128 then some ⟨true, maskAddr 128 pl n, pl⟩ else none
        | none => none
  | _ => none

/-- The value ipaddr produces: either a bare host address (Python
IPv4Address/IPv6Address) or a network (IPv4Network/IPv6Network). -/
inductive IpValue where
  | addr (v6 : Bool) (a : Nat)
  | net (n : IpNet)
deriving DecidableEq

/-- Embedding of ipaddr (dronebl.py lines 40-49): parse as a non-strict
network; if the prefix length equals the family maximum return the bare
network address, else return the network; any parse failure returns None. -/
def ipaddr (val : String) : Option IpValue :=
  match ip_network val with
  | none => none
  | some ipn =>
    if ipn.plen = famWidth ipn.v6 then some (.addr ipn.v6 ipn.addr)
    else some (.net ipn)

/-- The value idorip produces (Python returns either an int or an ipaddress
object in the same variable; do_query distinguishes them with isinstance). -/
inductive IdOrIp where
  | int (i : Int)
  | ip (v : IpValue)
deriving DecidableEq

/-- Embedding of idorip (dronebl.py lines 51-58): integer parse first, then
IP/CIDR parse, then the combined failure message. -/
def idorip (val : String) : Except String IdOrIp :=
  match checkint val with
  | none =>
    match ipaddr val with
    | none => .error "value must be either an integer, an IP address or a CIDR address"
    | some v => .ok (.ip v)
  | some i => .ok (.int i)

/-! ### Claims about the validators -/

/-- C6 (counterexample): for 256, which exceeds the enforced bound 255, the
validator's failure message is "value must be less than 1001" (matching the
documented bound 1000, dronebl.py line 81), not the "value must be less
than 256" that the claim derives from the enforced bound. -/
theorem c6_querylimit_message_counterexample :
    querylimit 256 = .error "value must be less than 1001"
    ∧ "value must be less than 1001" ≠ "value must be less than 256" := by
  exact ⟨rfl, by decide⟩

/-- C6 (amended): querylimit returns v unchanged exactly for 1 ≤ v ≤ 255,
fails with "value must be greater than 0" below the range, and fails with
"value must be less than 1001" above it (the message reflects the documented
bound 1000 while the check enforces 255). -/
theorem c6_querylimit_range (v : Int) :
    (querylimit v = .ok v ↔ 1 ≤ v ∧ v ≤ 255)
    ∧ (v < 1 → querylimit v = .error "value must be greater than 0")
    ∧ (255 < v → querylimit v = .error "value must be less than 1001") := by
  refine ⟨⟨?_, ?_⟩, ?_, ?_⟩
  · intro h
    unfold querylimit at h
    split_ifs at h with h1 h2
    omega
  · intro hv
    unfold querylimit
    split_ifs with h1 h2
    · omega
    · omega
    · rfl
  · intro hv
    unfold querylimit
    rw [if_pos hv]
  · intro hv
    unfold querylimit
    rw [if_neg (by omega), if_pos (by omega)]

theorem c6_querylimit_range_witness :
    querylimit 100 = .ok 100
    ∧ querylimit 0 = .error "value must be greater than 0"
    ∧ querylimit 256 = .error "value must be less than 1001" :=
  ⟨(c6_querylimit_range 100).1.mpr (by norm_num),
   (c6_querylimit_range 0).2.1 (by norm_num),
   (c6_querylimit_range 256).2.2 (by norm_num)⟩

/-- C7: idorip tries the integer parse first and returns the integer on
success; only when the integer parse fails does it try the IP/CIDR parse; when
both fail it fails with exactly the combined message. -/
theorem c7_idorip_order (s : String) :
    (∀ i : Int, checkint s = some i → idorip s = .ok (.int i))
    ∧ (checkint s = none → ∀ v : IpValue, ipaddr s = some v → idorip s = .ok (.ip v))
    ∧ (checkint s = none → ipaddr s = none →
        idorip s = .error "value must be either an integer, an IP address or a CIDR address") := by
  refine ⟨?_, ?_, ?_⟩ <;> intros <;> simp only [idorip, *]

theorem c7_idorip_order_witness :
    idorip "42" = .ok (.int 42)
    ∧ idorip "1.2.3.4" = .ok (.ip (.addr false 16909060))
    ∧ idorip "zzz" = .error "value must be either an integer, an IP address or a CIDR address" :=
  ⟨(c7_idorip_order "42").1 42 (by decide),
   (c7_idorip_order "1.2.3.4").2.1 (by decide) (.addr false 16909060) (by decide),
   (c7_idorip_order "zzz").2.2 (by decide) (by decide)⟩

/-- C8: on every string the model parses as a network, ipaddr returns the bare
host address when the prefix length equals the family maximum and the network
itself otherwise, and the network address always has its host bits zeroed by
the non-strict parse. -/
theorem c8_ipaddr_host_or_net (s : String) (n : IpNet) (h : ip_network s = some n) :
    ipaddr s = some (if n.plen = famWidth n.v6 then IpValue.addr n.v6 n.addr else IpValue.net n)
    ∧ n.addr % 2 ^ (famWidth n.v6 - n.plen) = 0 := by
  constructor
  · unfold ipaddr
    rw [h]
    exact (apply_ite some _ _ _).symm
  · unfold ip_network at h
    split at h
    · split at h
      · cases h
        simp [famWidth, Nat.mod_one]
      · split at h
        · cases h
          simp [famWidth, Nat.mod_one]
        · exact Option.noConfusion h
    · split at h
      · exact Option.noConfusion h
      · split at h
        · split at h
          · cases h
            simp [famWidth, maskAddr, Nat.mul_mod_left]
          · exact Option.noConfusion h
        · split at h
          · split at h
            · cases h
              simp [famWidth, maskAddr, Nat.mul_mod_left]
            · exact Option.noConfusion h
          · exact Option.noConfusion h
    · exact Option.noConfusion h

theorem c8_ipaddr_host_or_net_witness :
    (ipaddr "10.0.0.7/8" =
      some (if (8 : Nat) = famWidth false then IpValue.addr false 167772160
            else IpValue.net ⟨false, 167772160, 8⟩)
    ∧ 167772160 % 2 ^ (famWidth false - 8) = 0)
    ∧ (ipaddr "1.2.3.4" =
      some (if (32 : Nat) = famWidth false then IpValue.addr false 16909060
            else IpValue.net ⟨false, 16909060, 32⟩)
    ∧ 16909060 % 2 ^ (famWidth false - 32) = 0) :=
  ⟨c8_ipaddr_host_or_net "10.0.0.7/8" ⟨false, 167772160, 8⟩ (by decide),
   c8_ipaddr_host_or_net "1.2.3.4" ⟨false, 16909060, 32⟩ (by decide)⟩

/-! ### XML elements and the RPC response handling of send_rpcrequest -/

/-- Attribute mapping of an XML element, as an insertion-ordered association
list (Python ElementTree stores attributes in a dict). -/
abbrev Attribs := List (String × String)

def lookupAttr (a : Attribs) (k : String) : Option String :=
  (a.find? (fun p => p.1 == k)).map (fun p => p.2)

/-- An ElementTree element: tag, attributes, direct children, and the text
before the first child (None when absent). -/
inductive Element where
  | mk (tag : String) (attrib : Attribs) (children : List Element) (text : Option String)

def Element.tag : Element → String
  | .mk t _ _ _ => t

def Element.attrib : Element → Attribs
  | .mk _ a _ _ => a

def Element.children : Element → List Element
  | .mk _ _ c _ => c

def Element.text : Element → Option String
  | .mk _ _ _ t => t

/-- Element.find with a "./tag" path: the first direct child carrying the
tag. -/
def findChild (x : Element) (t : String) : Option Element :=
  x.children.find? (fun c => c.tag == t)

/-- Outcome of a run of response processing: a normal return carrying the
channel map, a deliberate sys.exit with its argument, or an unhandled Python
exception (which terminates the interpreter with status 1).  Each outcome
carries the lines printed before it. -/
inductive ProcResult where
  | ok (channels : List (String × List Attribs)) (printed : List String)
  | exit (code : Int) (printed : List String)
  | crash (printed : List String)

/-- The process terminates with a non-zero status: sys.exit with a non-zero
argument, or an unhandled exception (Python exits with status 1). -/
def ProcResult.exitsNonzero : ProcResult → Prop
  | .ok _ _ => False
  | .exit c _ => c ≠ 0
  | .crash _ => True

/-- The channel map a caller receives, when the call returns at all. -/
def channelsOf : ProcResult → Option (List (String × List Attribs))
  | .ok ch _ => some ch
  | _ => none

/-- One step of the grouping loop (dronebl.py lines 227-230): dict semantics
of ret[el.tag] with insertion order preserved, the first entry with the key
receives the appended attribute mapping and a missing key is appended at the
end. -/
def addChannel : List (String × List Attribs) → String → Attribs → List (String × List Attribs)
  | [], tg, a => [(tg, [a])]
  | p :: rest, tg, a =>
    if p.1 == tg then (p.1, p.2 ++ [a]) :: rest
    else p :: addChannel rest tg a

/-- The per-tag list of a channel map (dict read res[t], empty when the tag
never occurred). -/
def channel : List (String × List Attribs) → String → List Attribs
  | [], _ => []
  | p :: rest, t => if p.1 == t then p.2 else channel rest t

/-- The grouping loop of send_rpcrequest over the direct children of the
response root (dronebl.py lines 222-230), starting from the empty dict. -/
def groupChildren (els : List Element) : List (String × List Attribs) :=
  els.foldl (fun ret el => addChannel ret el.tag el.attrib) []

/-- The error branch of send_rpcrequest (dronebl.py lines 211-220).  The three
child lookups happen first; a missing child makes .text an attribute access on
None (AttributeError, modelled as a crash before anything is printed), and a
present child whose text is None crashes at the string concatenation inside
the print call for its line, after the earlier lines were printed. -/
def handle_error (xmlobj : Element) : ProcResult :=
  match findChild xmlobj "code" with
  | none => .crash []
  | some cel =>
    match findChild xmlobj "message" with
    | none => .crash []
    | some mel =>
      match findChild xmlobj "data" with
      | none => .crash []
      | some del2 =>
        match cel.text with
        | none => .crash ["Error received from RPC server:", ""]
        | some code =>
          match mel.text with
          | none => .crash ["Error received from RPC server:", "", "Code:    " ++ code]
          | some message =>
            match del2.text with
            | none => .crash ["Error received from RPC server:", "",
                "Code:    " ++ code, "Message: " ++ message]
            | some data =>
              .exit (-1) ["Error received from RPC server:", "",
                "Code:    " ++ code, "Message: " ++ message, "Data:    " ++ data]

/-- The response-validation and classification part of send_rpcrequest
(dronebl.py lines 202-232), applied to the parsed response document.  Every
call site passes printxmlres as False, so the success path prints nothing. -/
def handle_response (xmlobj : Element) : ProcResult :=
  if xmlobj.tag ≠ "response" then
    .exit (-1) ["Error: invalid XML response received..."]
  else
    match lookupAttr xmlobj.attrib "type" with
    | none => .exit (-1) ["Error: missing response type attribute..."]
    | some ty =>
      if ¬ (ty = "success" ∨ ty = "error") then
        .exit (-1) ["Error: Unknown response type received: " ++ ty]
      else if ty = "error" then handle_error xmlobj
      else .ok (groupChildren xmlobj.children) []

/-- Embedding of send_rpcrequest (dronebl.py lines 189-232).  The argument is
the outcome of the try block (serialize, POST, read, decode, et.fromstring):
either the parsed document or the exception it raised.  In the exception case
the except branch prints the diagnostic and falls through; the following read
of xmlobj.tag then raises UnboundLocalError (the local was never assigned),
an unhandled exception that terminates the interpreter with status 1 -
modelled as a crash after the diagnostic line. -/
def send_rpcrequest (tr : Except String Element) : ProcResult :=
  match tr with
  | .error ex => .crash ["Error retrieving RPC response: " ++ ex]
  | .ok xmlobj => handle_response xmlobj

theorem channel_addChannel (ret : List (String × List Attribs)) (tg t : String) (a : Attribs) :
    channel (addChannel ret tg a) t = channel ret t ++ (if tg == t then [a] else []) := by
  induction ret with
  | nil =>
    by_cases h : tg = t <;> simp [addChannel, channel, h]
  | cons p rest ih =>
    obtain ⟨k, v⟩ := p
    by_cases hp : k = tg
    · subst hp
      by_cases hq : k = t
      · subst hq
        simp [addChannel, channel]
      · simp [addChannel, channel, hq]
    · by_cases hq : k = t
      · subst hq
        have htg : ¬ tg = k := fun he => hp he.symm
        simp [addChannel, channel, hp, htg]
      · simp [addChannel, channel, hp, hq, ih]

theorem channel_groupAux (els : List Element) (acc : List (String × List Attribs)) (t : String) :
    channel (els.foldl (fun ret el => addChannel ret el.tag el.attrib) acc) t
      = channel acc t ++ (els.filter (fun el => el.tag == t)).map Element.attrib := by
  induction els generalizing acc with
  | nil => simp
  | cons el rest ih =>
    simp only [List.foldl_cons, List.filter_cons]
    rw [ih, channel_addChannel]
    by_cases h : el.tag = t
    · simp [h]
    · have : (el.tag == t) = false := by simp [h]
      simp [this]

/-- C1: for a response document with root tag "response" and type attribute
"success", send_rpcrequest returns normally with the direct children grouped
by tag name, each channel listing that tag's attribute mappings in document
order. -/
theorem c1_success_grouping (e : Element)
    (h1 : e.tag = "response") (h2 : lookupAttr e.attrib "type" = some "success") :
    handle_response e = .ok (groupChildren e.children) []
    ∧ ∀ t : String, channel (groupChildren e.children) t
        = (e.children.filter (fun el => el.tag == t)).map Element.attrib := by
  constructor
  · unfold handle_response
    rw [h2, if_neg (by simp [h1])]
    simp
  · intro t
    unfold groupChildren
    rw [channel_groupAux]
    simp [channel]

/-- A concrete success response: two result children and one warning child. -/
def exSuccessDoc : Element :=
  .mk "response" [("type", "success")]
    [ .mk "result" [("ip", "1.2.3.4"), ("type", "3")] [] none
    , .mk "result" [("ip", "5.6.7.8"), ("type", "19")] [] none
    , .mk "warning" [("data", "slow down")] [] none ] none

theorem c1_success_grouping_witness :
    handle_response exSuccessDoc = .ok (groupChildren exSuccessDoc.children) []
    ∧ channel (groupChildren exSuccessDoc.children) "result"
        = [[("ip", "1.2.3.4"), ("type", "3")], [("ip", "5.6.7.8"), ("type", "19")]]
    ∧ channel (groupChildren exSuccessDoc.children) "warning" = [[("data", "slow down")]] :=
  ⟨(c1_success_grouping exSuccessDoc rfl rfl).1, rfl, rfl⟩

/-- C2: for a response document of type "error" whose code, message and data
children are present with text, send_rpcrequest prints the three labeled
fields, terminates through sys.exit with the non-zero code -1, and returns no
channel map. -/
theorem c2_error_response_fatal (e cel mel del2 : Element) (tc tm td : String)
    (h1 : e.tag = "response") (h2 : lookupAttr e.attrib "type" = some "error")
    (hc : findChild e "code" = some cel) (htc : cel.text = some tc)
    (hm : findChild e "message" = some mel) (htm : mel.text = some tm)
    (hd : findChild e "data" = some del2) (htd : del2.text = some td) :
    handle_response e = .exit (-1) ["Error received from RPC server:", "",
      "Code:    " ++ tc, "Message: " ++ tm, "Data:    " ++ td]
    ∧ channelsOf (handle_response e) = none
    ∧ (handle_response e).exitsNonzero := by
  have hr : handle_response e = handle_error e := by
    unfold handle_response
    rw [h2, if_neg (by simp [h1])]
    simp
  have he : handle_error e = .exit (-1) ["Error received from RPC server:", "",
      "Code:    " ++ tc, "Message: " ++ tm, "Data:    " ++ td] := by
    simp only [handle_error, hc, hm, hd, htc, htm, htd]
  refine ⟨hr.trans he, ?_, ?_⟩
  · rw [hr, he]; rfl
  · rw [hr, he]
    show (-1 : Int) ≠ 0
    decide

/-- A concrete error response carrying code 100, message and data. -/
def exErrorDoc : Element :=
  .mk "response" [("type", "error")]
    [ .mk "code" [] [] (some "100")
    , .mk "message" [] [] (some "Bad key")
    , .mk "data" [] [] (some "detail") ] none

theorem c2_error_response_fatal_witness :
    handle_response exErrorDoc = .exit (-1) ["Error received from RPC server:", "",
      "Code:    " ++ "100", "Message: " ++ "Bad key", "Data:    " ++ "detail"]
    ∧ channelsOf (handle_response exErrorDoc) = none
    ∧ (handle_response exErrorDoc).exitsNonzero :=
  c2_error_response_fatal exErrorDoc
    (.mk "code" [] [] (some "100")) (.mk "message" [] [] (some "Bad key"))
    (.mk "data" [] [] (some "detail")) "100" "Bad key" "detail"
    rfl rfl rfl rfl rfl rfl rfl rfl

/-- C4: a transport-level failure inside the request/response exchange makes
send_rpcrequest print its diagnostic and terminate with a non-zero status (the
diagnostic print is followed by an unhandled UnboundLocalError on xmlobj,
which ends the process with status 1); no channels are returned and nothing
else runs - there is no retry. -/
theorem c4_transport_failure_fatal (ex : String) :
    send_rpcrequest (.error ex) = .crash ["Error retrieving RPC response: " ++ ex]
    ∧ (send_rpcrequest (.error ex)).exitsNonzero
    ∧ channelsOf (send_rpcrequest (.error ex)) = none :=
  ⟨rfl, trivial, rfl⟩

/-! ### Request building: get_rpcrequest, req_addmethod, do_query, do_add -/

/-- The in-process configuration as the request-building commands see it.  The
top-level dispatcher (dronebl.py lines 528-530) refuses to run any command
other than config while the RPC key is None, so here rpckey is a plain
string. -/
structure Config where
  rpckey : String
  staging : Bool
  debug : Bool

/-- Embedding of get_rpcrequest (dronebl.py lines 159-169): the root request
element carries the key attribute always, staging="1" only under staging mode
and debug="1" only under debug mode, in that insertion order. -/
def get_rpcrequest (config : Config) : Element :=
  .mk "request"
    ([("key", config.rpckey)]
      ++ (if config.staging then [("staging", "1")] else [])
      ++ (if config.debug then [("debug", "1")] else []))
    [] none

/-- Embedding of req_addmethod (dronebl.py lines 171-175): et.SubElement
appends a child with the method tag and the keyword attributes.  With string
attribute values SubElement does not raise, so the except branch (print and
continue) is unreachable at every call site and the append is unconditional. -/
def req_addmethod (req : Element) (method : String) (kwargs : Attribs) : Element :=
  .mk req.tag req.attrib (req.children ++ [.mk method kwargs [] none]) req.text

/-- str(x) for the optional integer-valued CLI options (Python str of an
int). -/
def optAttr (k : String) : Option Int → Attribs
  | none => []
  | some v => [(k, toString v)]

/-- The decimal text of one dotted-quad byte. -/
def v4str (a : Nat) : String :=
  toString (a / 16777216 % 256) ++ "." ++ toString (a / 65536 % 256) ++ "."
    ++ toString (a / 256 % 256) ++ "." ++ toString (a % 256)

def hexStr (n : Nat) : String := String.mk (Nat.toDigits 16 n)

def v6hextets (a : Nat) : List Nat :=
  [a / 2 ^ 112 % 65536, a / 2 ^ 96 % 65536, a / 2 ^ 80 % 65536, a / 2 ^ 64 % 65536,
   a / 2 ^ 48 % 65536, a / 2 ^ 32 % 65536, a / 2 ^ 16 % 65536, a % 65536]

def zeroRunLen (gs : List Nat) : Nat := (gs.takeWhile (fun g => g == 0)).length

/-- Leftmost longest run of zero hextets, as (start, length). -/
def bestZeroRunAux : List Nat → Nat → Nat × Nat → Nat × Nat
  | [], _, best => best
  | g :: rest, i, best =>
    if g == 0 then
      let l := 1 + zeroRunLen rest
      bestZeroRunAux rest (i + 1) (if l > best.2 then (i, l) else best)
    else bestZeroRunAux rest (i + 1) best

def bestZeroRun (gs : List Nat) : Nat × Nat := bestZeroRunAux gs 0 (0, 0)

/-- str of an IPv6 address: lowercase hextets without leading zeros, with the
leftmost longest run of two or more zero hextets compressed to "::". -/
def v6str (a : Nat) : String :=
  let gs := v6hextets a
  let best := bestZeroRun gs
  if best.2 > 1 then
    String.intercalate ":" ((gs.take best.1).map hexStr) ++ "::"
      ++ String.intercalate ":" ((gs.drop (best.1 + best.2)).map hexStr)
  else String.intercalate ":" (gs.map hexStr)

/-- str of the value ipaddr produced: the address text, with "/" and the
prefix length appended for a network. -/
def ipValueStr : IpValue → String
  | .addr false a => v4str a
  | .addr true a => v6str a
  | .net n => (if n.v6 then v6str n.addr else v4str n.addr) ++ "/" ++ toString n.plen

/-- str applied to an argparse slot filled by ipaddr: Python str(None) is the
four-character string "None". -/
def pyStrOptIp : Option IpValue → String
  | none => "None"
  | some v => ipValueStr v

/-- The argparse namespace fields the query command reads. -/
structure QueryArgs where
  idorip : List IdOrIp
  own : Bool
  limit : Option Int
  listed : Option Int
  type : Option Int
  start : Option Int
  stop : Option Int

/-- The optional lookup attributes of do_query (dronebl.py lines 369-381), in
the order the code inserts them. -/
def query_kwargs (a : QueryArgs) : Attribs :=
  (if a.own then [("own", "1")] else [])
    ++ optAttr "limit" a.limit ++ optAttr "listed" a.listed ++ optAttr "type" a.type
    ++ optAttr "start" a.start ++ optAttr "stop" a.stop

/-- The attributes of one lookup call (dronebl.py lines 383-387): an id
attribute for an integer identifier (isinstance int), an ip attribute
otherwise, followed by the shared optional attributes. -/
def lookup_attrs (a : QueryArgs) : IdOrIp → Attribs
  | .int i => ("id", toString i) :: query_kwargs a
  | .ip v => ("ip", ipValueStr v) :: query_kwargs a

/-- The request do_query builds (dronebl.py lines 367-387): one lookup method
per identifier. -/
def do_query_request (config : Config) (a : QueryArgs) : Element :=
  a.idorip.foldl
    (fun req item => req_addmethod req "lookup" (lookup_attrs a item))
    (get_rpcrequest config)

/-- The argparse namespace fields the add command reads; each ip slot holds
whatever ipaddr returned, including None. -/
structure AddArgs where
  ip : List (Option IpValue)
  type : Option Int
  port : Option Int
  comment : Option String

/-- The shared attributes of do_add (dronebl.py lines 441-447). -/
def add_kwargs (a : AddArgs) : Attribs :=
  optAttr "type" a.type ++ optAttr "port" a.port
    ++ (match a.comment with
        | none => []
        | some c => [("comment", c)])

/-- The request do_add builds (dronebl.py lines 439-450): one add method per
supplied ip slot, its ip attribute being str of the slot's value. -/
def do_add_request (config : Config) (a : AddArgs) : Element :=
  a.ip.foldl
    (fun req item => req_addmethod req "add" (("ip", pyStrOptIp item) :: add_kwargs a))
    (get_rpcrequest config)

theorem foldl_addmethod {α : Type} (l : List α) (g : α → String) (h : α → Attribs)
    (base : Element) :
    l.foldl (fun req x => req_addmethod req (g x) (h x)) base
      = .mk base.tag base.attrib
          (base.children ++ l.map (fun x => .mk (g x) (h x) [] none)) base.text := by
  induction l generalizing base with
  | nil =>
    cases base
    simp [Element.tag, Element.attrib, Element.children, Element.text]
  | cons x rest ih =>
    simp only [List.foldl_cons, List.map_cons]
    rw [ih]
    simp [req_addmethod, Element.tag, Element.attrib, Element.children, Element.text]

/-- C3: for every configuration and command input, the built request root
carries the active key as its key attribute, a staging marker exactly when
staging mode is on, a debug marker exactly when debug mode is on, and one
method element per supplied target item (shown for the query and add
builders). -/
theorem c3_request_shape (cfg : Config) (qa : QueryArgs) (aa : AddArgs) :
    lookupAttr (do_query_request cfg qa).attrib "key" = some cfg.rpckey
    ∧ (lookupAttr (do_query_request cfg qa).attrib "staging").isSome = cfg.staging
    ∧ (lookupAttr (do_query_request cfg qa).attrib "debug").isSome = cfg.debug
    ∧ (do_query_request cfg qa).children.length = qa.idorip.length
    ∧ (do_query_request cfg qa).children.all (fun el => el.tag == "lookup") = true
    ∧ lookupAttr (do_add_request cfg aa).attrib "key" = some cfg.rpckey
    ∧ (lookupAttr (do_add_request cfg aa).attrib "staging").isSome = cfg.staging
    ∧ (lookupAttr (do_add_request cfg aa).attrib "debug").isSome = cfg.debug
    ∧ (do_add_request cfg aa).children.length = aa.ip.length
    ∧ (do_add_request cfg aa).children.all (fun el => el.tag == "add") = true := by
  unfold do_query_request do_add_request
  rw [foldl_addmethod qa.idorip (fun _ => "lookup") (lookup_attrs qa) (get_rpcrequest cfg)]
  rw [foldl_addmethod aa.ip (fun _ => "add")
      (fun item => ("ip", pyStrOptIp item) :: add_kwargs aa) (get_rpcrequest cfg)]
  obtain ⟨k, s, d⟩ := cfg
  cases s <;> cases d <;>
    simp [get_rpcrequest, lookupAttr, Element.attrib, Element.children, Element.tag,
      List.find?, List.all_eq_true]

/-- C10: ipaddr signals failure by returning None with no reason, and argparse
stores that None as the item value, so an add invocation whose ip argument
fails to parse builds an add method node whose ip attribute is the literal
string "None" - the input is not rejected before the request is built. -/
theorem c10_invalid_ip_becomes_none (s : String) (cfg : Config) (t p : Option Int)
    (c : Option String) (h : ipaddr s = none) :
    (do_add_request cfg ⟨[ipaddr s], t, p, c⟩).children.map
        (fun el => (el.tag, lookupAttr el.attrib "ip"))
      = [("add", some "None")] := by
  rw [h]
  unfold do_add_request
  rw [foldl_addmethod [none] (fun _ => "add")
      (fun item => ("ip", pyStrOptIp item) :: add_kwargs ⟨[none], t, p, c⟩)
      (get_rpcrequest cfg)]
  simp [get_rpcrequest, Element.children, Element.tag, Element.attrib,
    lookupAttr, List.find?, pyStrOptIp]

theorem c10_invalid_ip_becomes_none_witness :
    (do_add_request ⟨"k", false, false⟩
        ⟨[ipaddr "not-an-ip"], some 19, none, none⟩).children.map
        (fun el => (el.tag, lookupAttr el.attrib "ip"))
      = [("add", some "None")] :=
  c10_invalid_ip_becomes_none "not-an-ip" ⟨"k", false, false⟩ (some 19) none none rfl

/-! ### The query result table of do_query -/

/-- The fixed column set of the query table (dronebl.py line 391): key, header
label, minimum width, in the fixed order. -/
def queryCols : List (String × String × Nat) :=
  [("timestamp", "Time", 5), ("id", "ID", 3), ("ip", "IP", 3),
   ("type", "Type", 5), ("listed", "Listed", 7), ("comment", "Comment", 8)]

/-- str.ljust: pad on the right with spaces up to the width. -/
def pyLjust (s : String) (w : Nat) : String :=
  s ++ String.mk (List.replicate (w - s.length) ' ')

/-- Width update of one column by one row (dronebl.py lines 399-403): a key
absent from the row is skipped (the continue), and a value longer than the
current width widens the column to the value length plus one. -/
def widenCol (r : Attribs) (c : String × String × Nat) : String × String × Nat :=
  match lookupAttr r c.1 with
  | none => c
  | some v => if v.length > c.2.2 then (c.1, c.2.1, v.length + 1) else c

/-- The column widths after the width-computation loop over all result rows
(dronebl.py lines 393-404; the timestamp rewrite of lines 396-398 replaces
the value before this loop body runs, so the rows here stand for the
already-rewritten rows). -/
def computeCols (results : List Attribs) : List (String × String × Nat) :=
  results.foldl (fun cs r => cs.map (widenCol r)) queryCols

/-- The line-join of one row (dronebl.py lines 418-424).  The rendering loop
reads r[k] unconditionally - unlike the width loop it has no continue - so a
key absent from the row raises KeyError; the unhandled exception is modelled
as none. -/
def renderRowAux (r : Attribs) (line : String) : List (String × String × Nat) → Option String
  | [] => some line
  | c :: rest =>
    let line2 := if line.length > 0 then line ++ " " else line
    match lookupAttr r c.1 with
    | none => none
    | some v => renderRowAux r (line2 ++ pyLjust v c.2.2) rest

def renderRow (cols : List (String × String × Nat)) (r : Attribs) : Option String :=
  renderRowAux r "" cols

/-- C5 (counterexample): a result row carrying only an id is not rendered at
all - the line-join reads the missing timestamp key and raises KeyError
(none), where the claim says the absent keys are skipped and rendering
completes. -/
theorem c5_missing_key_counterexample :
    renderRow (computeCols [[("id", "1")]]) [("id", "1")] = none := rfl

/-- C5 (amended): an absent key is skipped only by the width-computation loop;
in the line-join an absent key aborts the row with a KeyError, so rendering a
row completes exactly when every one of the fixed column keys is present on
it. -/
theorem c5_row_render_requires_all_keys (cols : List (String × String × Nat)) (r : Attribs) :
    ((renderRow cols r).isSome ↔ ∀ c ∈ cols, (lookupAttr r c.1).isSome)
    ∧ (∀ (k hd : String) (w : Nat), lookupAttr r k = none → widenCol r (k, hd, w) = (k, hd, w)) := by
  constructor
  · have haux : ∀ (cs : List (String × String × Nat)) (line : String),
        (renderRowAux r line cs).isSome ↔ ∀ c ∈ cs, (lookupAttr r c.1).isSome := by
      intro cs
      induction cs with
      | nil => intro line; simp [renderRowAux]
      | cons c rest ih =>
        intro line
        simp only [renderRowAux]
        cases hl : lookupAttr r c.1 with
        | none => simp [hl]
        | some v => simp [hl, ih]
    exact haux cols ""
  · intro k hd w hk
    simp [widenCol, hk]

theorem c5_row_render_requires_all_keys_witness :
    widenCol [("id", "1")] ("timestamp", "Time", 5) = ("timestamp", "Time", 5)
    ∧ ¬ (renderRow queryCols [("id", "1")]).isSome :=
  ⟨(c5_row_render_requires_all_keys queryCols [("id", "1")]).2 "timestamp" "Time" 5 rfl,
   fun hs => by
     have hmem := (c5_row_render_requires_all_keys queryCols [("id", "1")]).1.mp hs
       ("timestamp", "Time", 5) (by simp [queryCols])
     simp [lookupAttr, List.find?] at hmem⟩

/-! ### The configuration loader load_config -/

/-- A parsed JSON document as json.load returns it.  Numbers are folded into
one constructor (no claim distinguishes int and float); an object stands for
the parsed dict, duplicate source keys already collapsed by json.load. -/
inductive Json where
  | null
  | bool (b : Bool)
  | num (n : Int)
  | str (s : String)
  | arr (xs : List Json)
  | obj (kvs : List (String × Json))

/-- Whether the needle list is an initial segment of the haystack. -/
def isPre : List Char → List Char → Bool
  | [], _ => true
  | _ :: _, [] => false
  | a :: as2, b :: bs => a == b && isPre as2 bs

def containsSub (needle : List Char) : List Char → Bool
  | [] => needle.isEmpty
  | c :: rest => isPre needle (c :: rest) || containsSub needle rest

/-- Python substring membership `key in s`. -/
def pyStrContains (hay key : String) : Bool := containsSub key.toList hay.toList

/-- Python == between a string and an arbitrary JSON element: true only for an
equal string. -/
def jsonEqStr (j : Json) (s : String) : Bool :=
  match j with
  | .str t => t == s
  | _ => false

/-- Python `key in value` on a parsed JSON value: key membership for a dict,
element equality for a list, substring test for a string; null, booleans and
numbers are not iterable and raise TypeError (error). -/
def pyIn (key : String) : Json → Except Unit Bool
  | .obj kvs => .ok (kvs.any (fun p => p.1 == key))
  | .arr xs => .ok (xs.any (fun j => jsonEqStr j key))
  | .str s => .ok (pyStrContains s key)
  | _ => .error ()

/-- Python value[key] with a string key on a parsed JSON value: dict lookup
(KeyError when the key is absent); every non-dict raises TypeError. -/
def pySub (key : String) : Json → Except Unit Json
  | .obj kvs =>
    match kvs.find? (fun p => p.1 == key) with
    | some p => .ok p.2
    | none => .error ()
  | _ => .error ()

/-- The in-process config dict as load_config mutates it: the loaded values
are stored untyped, exactly as json.load produced them. -/
structure PyConfig where
  rpckey : Json
  staging : Json
  debug : Json

/-- The defaults of dronebl.py line 30 (rpckey None, staging and debug
False). -/
def defaultPyConfig : PyConfig := ⟨.null, .bool false, .bool false⟩

/-- One recognized-key merge step of load_config (dronebl.py lines 152-157):
`if key in newconfig: config[key] = newconfig[key]`, where either operation
may raise. -/
def mergeKey (key : String) (j : Json) (upd : PyConfig → Json → PyConfig)
    (c : PyConfig) : Except Unit PyConfig :=
  match pyIn key j with
  | .error e => .error e
  | .ok b =>
    if b then
      match pySub key j with
      | .error e => .error e
      | .ok v => .ok (upd c v)
    else .ok c

/-- Embedding of load_config (dronebl.py lines 135-157).  The first argument
is the os.path.isfile test; the second is the outcome of the try block: none
when open or json.load raised (the except: pass leaves newconfig None), the
parsed document otherwise.  A document parsing to JSON null also leaves
newconfig None, so both return the defaults at line 149-150.  The three merge
steps then run outside any try; an error outcome is the unhandled exception
they may raise (terminating the process). -/
def load_config (fileExists : Bool) (parsed : Option Json) : Except Unit PyConfig :=
  match fileExists with
  | false => .ok defaultPyConfig
  | true =>
    match parsed with
    | none => .ok defaultPyConfig
    | some .null => .ok defaultPyConfig
    | some j =>
      match mergeKey "rpckey" j (fun c v => { c with rpckey := v }) defaultPyConfig with
      | .error e => .error e
      | .ok c1 =>
        match mergeKey "staging" j (fun c v => { c with staging := v }) c1 with
        | .error e => .error e
        | .ok c2 => mergeKey "debug" j (fun c v => { c with debug := v }) c2

/-- Dict lookup on the parsed object, as an Option. -/
def objGet (key : String) (kvs : List (String × Json)) : Option Json :=
  (kvs.find? (fun p => p.1 == key)).map (fun p => p.2)

theorem any_eq_find_isSome (kvs : List (String × Json)) (key : String) :
    kvs.any (fun p => p.1 == key) = (kvs.find? (fun p => p.1 == key)).isSome := by
  induction kvs with
  | nil => rfl
  | cons p rest ih =>
    cases hp : (p.1 == key) <;> simp [List.any_cons, List.find?, hp, ih]

theorem mergeKey_obj (key : String) (kvs : List (String × Json))
    (upd : PyConfig → Json → PyConfig) (c : PyConfig) :
    mergeKey key (.obj kvs) upd c
      = .ok (match objGet key kvs with
             | some v => upd c v
             | none => c) := by
  unfold mergeKey
  simp only [pyIn]
  rw [any_eq_find_isSome]
  cases hf : kvs.find? (fun p => p.1 == key) with
  | none => simp [hf, pySub, objGet]
  | some p => simp [hf, pySub, objGet]

/-- C9 (counterexample): a config file whose text is the JSON document true
exists and parses, and the claim then requires the recognized-key merge to
happen (yielding the defaults, there being no keys); instead the membership
test at line 152 raises TypeError (bool is not iterable), an unhandled
exception. -/
theorem c9_nonmapping_parse_counterexample :
    load_config true (some (.bool true)) = .error () := rfl

/-- C9 (amended): a missing file yields the defaults without error; a file
whose parse raised - or whose text is null - silently yields the defaults;
a file parsing to a JSON mapping has each recognized key (rpckey, staging,
debug) merged over the defaults and every other key ignored.  A file parsing
to a non-mapping document is outside the graceful path and can raise an
uncaught TypeError. -/
theorem c9_load_config_merge (fe : Bool) (parsed : Option Json) :
    (fe = false → load_config fe parsed = .ok defaultPyConfig)
    ∧ (parsed = none → load_config fe parsed = .ok defaultPyConfig)
    ∧ (parsed = some .null → load_config fe parsed = .ok defaultPyConfig)
    ∧ (∀ kvs, fe = true → parsed = some (.obj kvs) →
        load_config fe parsed
          = .ok ⟨(objGet "rpckey" kvs).getD .null,
                 (objGet "staging" kvs).getD (.bool false),
                 (objGet "debug" kvs).getD (.bool false)⟩) := by
  refine ⟨?_, ?_, ?_, ?_⟩
  · intro h; subst h; rfl
  · intro h; subst h; cases fe <;> rfl
  · intro h; subst h; cases fe <;> rfl
  · intro kvs hfe hp
    subst hfe; subst hp
    simp only [load_config, mergeKey_obj]
    cases objGet "rpckey" kvs <;> cases objGet "staging" kvs <;>
      cases objGet "debug" kvs <;> rfl

theorem c9_load_config_merge_witness :
    load_config true (some (.obj [("rpckey", .str "k"), ("other", .num 1)]))
      = .ok ⟨.str "k", .bool false, .bool false⟩ :=
  (c9_load_config_merge true (some (.obj [("rpckey", .str "k"), ("other", .num 1)]))).2.2.2
    [("rpckey", .str "k"), ("other", .num 1)] rfl rfl

end DroneBL
